import Mathlib

/-!
Verification of the message-state reconciliation engine of a chat-mirroring
program.  The Python source is shallowly embedded: each handler method and
database operation becomes a Lean function over an explicit `World` state
(the Mongo collections, the in-memory cache, the destination group, and
fault-injection schedules for store writes and destination sends).
-/

namespace ChatBackup

/-- Text is modelled as a list of characters (Python `str`). -/
abbrev Str := List Char

/-- Enum `SenderType` from database/models.py. -/
inductive SenderType
  | you
  | her
  | system
deriving DecidableEq, Repr

/-- Enum `MediaType` from database/models.py (claim-relevant constructors;
`none` is the default used by `save_message`). -/
inductive MediaType
  | photo
  | video
  | document
  | voice
  | sticker
  | none
deriving DecidableEq, Repr

/-- One document of the `messages` collection, as produced by
`MessageModel.to_dict` (database/models.py). -/
structure StoredMessage where
  original_id : Int
  group_id : Int
  sender : SenderType
  content : Option Str
  has_media : Bool
  media_type : MediaType
  media_path : Option Str
  reply_to_original : Option Int
  reply_to_group : Option Int
  is_forwarded : Bool
  is_edited : Bool
  is_deleted : Bool
  view_once : Bool
deriving DecidableEq, Repr

/-- One document of the `edit_history` collection (`EditHistoryModel`). -/
structure EditHistoryRow where
  original_id : Int
  old_content : Str
  new_content : Str
  edit_notification_id : Option Int
deriving DecidableEq, Repr

/-- One message that reached the destination backup group (the result of a
bot `send_message` / `send_file` call, src/bots.py). -/
structure SentMessage where
  msg_id : Int
  text : Str
  is_outgoing : Bool
  reply_to : Option Int
deriving DecidableEq, Repr

/-- The program state: the three claim-relevant Mongo collections, the
`DatabaseOperations._cache` dictionary, the destination group's message log,
and fault-injection schedules.  `dbOk` / `sendOk` / `downloadOk` list the
outcomes of successive primitive store writes / destination sends / media
downloads (an empty schedule means every remaining operation succeeds);
`slept` records the backoff delays taken by `_retry_operation`. -/
structure World where
  messages : List StoredMessage
  edit_history : List EditHistoryRow
  cache : List (Int × StoredMessage)
  last_processed_id : Option Int
  sent : List SentMessage
  next_group_id : Int
  dbOk : List Bool
  sendOk : List Bool
  downloadOk : List Bool
  slept : List Nat
deriving DecidableEq, Repr

/-- Pop the next outcome from a fault schedule; an exhausted schedule means
success. -/
def popOk : List Bool → Bool × List Bool
  | [] => (true, [])
  | b :: rest => (b, rest)

/-- Configuration names used to label annotation messages
(config/settings.py: YOUR_NAME / HER_NAME). -/
structure Settings where
  your_name : Str
  her_name : Str
deriving DecidableEq, Repr

/-- BotManager.get_sender_name (src/bots.py): display name chosen by message
direction. -/
def get_sender_name (st : Settings) (is_outgoing : Bool) : Str :=
  if is_outgoing then st.your_name else st.her_name

/-- MessageModel.truncate_content (database/models.py): content longer than
4096 characters is cut to 4093 characters plus an ASCII ellipsis. -/
def truncate_content (v : Option Str) : Option Str :=
  match v with
  | Option.none => Option.none
  | some s => if s ≠ [] ∧ 4096 < s.length then some (s.take 4093 ++ "...".data) else some s

/-- The `MessageModel` constructor as invoked by
`DatabaseOperations.save_message`: the content validator is applied, the
status flags take their defaults, and `media_type` defaults to `none`. -/
def MessageModel (original_id : Int) (group_id : Int) (sender : SenderType)
    (content : Option Str) (has_media : Bool) (media_type : Option MediaType)
    (media_path : Option Str) (reply_to_original : Option Int)
    (reply_to_group : Option Int) (view_once : Bool) : StoredMessage :=
  { original_id := original_id
    group_id := group_id
    sender := sender
    content := truncate_content content
    has_media := has_media
    media_type := media_type.getD MediaType.none
    media_path := media_path
    reply_to_original := reply_to_original
    reply_to_group := reply_to_group
    is_forwarded := false
    is_edited := false
    is_deleted := false
    view_once := view_once }

/-- Outcome of a Mongo write: success, unique-index violation
(`DuplicateKeyError`), or a transient `WriteError` injected by the fault
schedule. -/
inductive WriteOutcome
  | ok
  | dupKey
  | writeFail
deriving DecidableEq, Repr

/-- Operation `db.messages.insert_one` with the unique index on `original_id`
(database/mongo.py creates it): a transient fault aborts the write, a
duplicate `original_id` raises `DuplicateKeyError`, otherwise the document
is appended. -/
def insert_one_messages (w : World) (r : StoredMessage) : WriteOutcome × World :=
  let p := popOk w.dbOk
  let w1 := { w with dbOk := p.2 }
  if p.1 then
    if w1.messages.any (fun m => m.original_id = r.original_id) then
      (WriteOutcome.dupKey, w1)
    else
      (WriteOutcome.ok, { w1 with messages := w1.messages ++ [r] })
  else (WriteOutcome.writeFail, w1)

/-- Retry budget of `DatabaseOperations._retry_operation`. -/
def RETRY_ATTEMPTS : Nat := 3

/-- Base backoff delay (seconds) of `DatabaseOperations._retry_operation`. -/
def RETRY_DELAY : Nat := 1

/-- Operation `DatabaseOperations._retry_operation(self.db.messages.insert_one, ...)`
unrolled for its fixed `RETRY_ATTEMPTS = 3` budget: each failed attempt
short of the last sleeps `RETRY_DELAY * 2 ^ (attempt - 1)` seconds and
retries; the last attempt re-raises its error.  Both `DuplicateKeyError`
and transient write errors are subclasses of pymongo's `WriteError`, so
both are retried. -/
def retry_insert_messages (w : World) (r : StoredMessage) : WriteOutcome × World :=
  match insert_one_messages w r with
  | (WriteOutcome.ok, w1) => (WriteOutcome.ok, w1)
  | (_, w1) =>
    let w1s := { w1 with slept := w1.slept ++ [RETRY_DELAY * 2 ^ (1 - 1)] }
    match insert_one_messages w1s r with
    | (WriteOutcome.ok, w2) => (WriteOutcome.ok, w2)
    | (_, w2) =>
      let w2s := { w2 with slept := w2.slept ++ [RETRY_DELAY * 2 ^ (2 - 1)] }
      insert_one_messages w2s r

/-- Operation `DatabaseOperations.update_last_processed_id`: upserts the single
checkpoint row, unconditionally overwriting its value; a store failure is
caught and reported as `false`. -/
def update_last_processed_id (w : World) (message_id : Int) : Bool × World :=
  let p := popOk w.dbOk
  let w1 := { w with dbOk := p.2 }
  if p.1 then (true, { w1 with last_processed_id := some message_id })
  else (false, w1)

/-- Operation `DatabaseOperations.save_message`: builds the `MessageModel` (a missing
`group_id` fails pydantic validation and is caught by the generic handler),
inserts it through `_retry_operation`, then fills the cache and advances the
checkpoint; `DuplicateKeyError` is caught and reported as `false` with no
further effect. -/
def save_message (w : World) (original_id : Int) (group_id : Option Int)
    (sender : SenderType) (content : Option Str) (has_media : Bool)
    (media_type : Option MediaType) (media_path : Option Str)
    (reply_to_original : Option Int) (reply_to_group : Option Int)
    (view_once : Bool) : Bool × World :=
  match group_id with
  | Option.none => (false, w)
  | some gid =>
    let record := MessageModel original_id gid sender content has_media
      media_type media_path reply_to_original reply_to_group view_once
    match retry_insert_messages w record with
    | (WriteOutcome.ok, w1) =>
      let w2 := { w1 with cache := (original_id, record) :: w1.cache }
      let u := update_last_processed_id w2 original_id
      (true, u.2)
    | (WriteOutcome.dupKey, w1) => (false, w1)
    | (WriteOutcome.writeFail, w1) => (false, w1)

/-- Operation `DatabaseOperations.get_message`: the cache is consulted first; a cache
miss queries the `messages` collection and fills the cache on a hit. -/
def get_message (w : World) (original_id : Int) : Option StoredMessage × World :=
  match w.cache.find? (fun p => p.1 = original_id) with
  | some p => (some p.2, w)
  | Option.none =>
    match w.messages.find? (fun r => r.original_id = original_id) with
    | some r => (some r, { w with cache := (original_id, r) :: w.cache })
    | Option.none => (Option.none, w)

/-- Operation `DatabaseOperations.message_exists`: a direct `count_documents` query,
bypassing the cache. -/
def message_exists (w : World) (original_id : Int) : Bool :=
  w.messages.any (fun r => r.original_id = original_id)

/-- Cache invalidation (`del self._cache[key]`) as performed by `add_edit`
and `mark_deleted`. -/
def cache_invalidate (w : World) (original_id : Int) : World :=
  { w with cache := w.cache.filter (fun p => p.1 ≠ original_id) }

/-- Apply `$set is_deleted = true` to the first `messages` document matching
`original_id` (Mongo `update_one`). -/
def set_deleted_first : List StoredMessage → Int → List StoredMessage
  | [], _ => []
  | r :: rest, id =>
    if r.original_id = id then { r with is_deleted := true } :: rest
    else r :: set_deleted_first rest id

/-- Operation `DatabaseOperations.mark_deleted`: `update_one` with
`$set is_deleted = true`; the reported value is `modified_count > 0`, which
is zero both when no document matches and when the matched document already
has `is_deleted = true`. -/
def mark_deleted (w : World) (original_id : Int) : Bool × World :=
  let p := popOk w.dbOk
  let w1 := { w with dbOk := p.2 }
  if p.1 then
    match w1.messages.find? (fun r => r.original_id = original_id) with
    | Option.none => (false, cache_invalidate w1 original_id)
    | some r =>
      if r.is_deleted then (false, cache_invalidate w1 original_id)
      else
        (true,
         cache_invalidate
           { w1 with messages := set_deleted_first w1.messages original_id }
           original_id)
  else (false, w1)

/-- Apply the `add_edit` message update (`$set content/is_edited`) to the
first matching `messages` document. -/
def set_edited_first : List StoredMessage → Int → Str → List StoredMessage
  | [], _, _ => []
  | r :: rest, id, c =>
    if r.original_id = id then { r with content := some c, is_edited := true } :: rest
    else r :: set_edited_first rest id c

/-- Operation `db.edit_history.insert_one` (no unique index): append unless the fault
schedule injects a failure. -/
def insert_one_edit_history (w : World) (row : EditHistoryRow) : Bool × World :=
  let p := popOk w.dbOk
  let w1 := { w with dbOk := p.2 }
  if p.1 then (true, { w1 with edit_history := w1.edit_history ++ [row] })
  else (false, w1)

/-- Operation `db.messages.update_one` as issued by `add_edit`: set the new content
and the `is_edited` flag on the first matching document. -/
def update_one_message_edit (w : World) (original_id : Int) (new_content : Str) :
    Bool × World :=
  let p := popOk w.dbOk
  let w1 := { w with dbOk := p.2 }
  if p.1 then (true, { w1 with messages := set_edited_first w1.messages original_id new_content })
  else (false, w1)

/-- Operation `DatabaseOperations.add_edit`: reads the current document, builds an
`EditHistoryModel` (pydantic requires both contents to be strings, so a
missing old or new content raises and is caught), inserts the history row,
then updates the message document; the two writes are sequential, with no
transaction and no rollback between them. -/
def add_edit (w : World) (original_id : Int) (new_content : Option Str)
    (edit_notification_id : Option Int) : Bool × World :=
  match get_message w original_id with
  | (Option.none, w1) => (false, w1)
  | (some message, w1) =>
    match message.content, new_content with
    | some old_c, some new_c =>
      let row : EditHistoryRow :=
        { original_id := original_id
          old_content := old_c
          new_content := new_c
          edit_notification_id := edit_notification_id }
      match insert_one_edit_history w1 row with
      | (false, w2) => (false, w2)
      | (true, w2) =>
        match update_one_message_edit w2 original_id new_c with
        | (false, w3) => (false, w3)
        | (true, w3) => (true, cache_invalidate w3 original_id)
    | _, _ => (false, w1)

/-- A Telethon message event as seen by `Monitor._handle_new_message`:
`has_ttl` stands for a `ttl_seconds` attribute on the media (view-once). -/
structure Msg where
  id : Int
  out : Bool
  text : Option Str
  media : Bool
  has_ttl : Bool
  reply_to_msg_id : Option Int
deriving DecidableEq, Repr

/-- Predicate `Monitor._is_view_once` (src/src/monitor.py): media with a `ttl_seconds`
attribute set. -/
def Monitor_is_view_once (m : Msg) : Bool :=
  m.media && m.has_ttl

/-- Operation `BotManager.send_text` (src/bots.py): one destination-visible message
per call, returning the id Telegram assigned; a transport failure raises to
the caller (modelled as `Option.none`), and the manager itself never
retries. -/
def send_text (w : World) (text : Str) (is_outgoing : Bool) (reply_to : Option Int) :
    Option Int × World :=
  let p := popOk w.sendOk
  let w1 := { w with sendOk := p.2 }
  if p.1 then
    (some w1.next_group_id,
     { w1 with
        sent := w1.sent ++ [⟨w1.next_group_id, text, is_outgoing, reply_to⟩]
        next_group_id := w1.next_group_id + 1 })
  else (Option.none, w1)

/-- Operation `BotManager.send_media`: a single destination message carrying the
caption (the media payload itself is outside the embedded state). -/
def send_media (w : World) (caption : Str) (is_outgoing : Bool) (reply_to : Option Int) :
    Option Int × World :=
  send_text w caption is_outgoing reply_to

/-- Operation `BotManager.send_file`: a single destination message carrying the
caption of the uploaded file. -/
def send_file (w : World) (caption : Str) (is_outgoing : Bool) (reply_to : Option Int) :
    Option Int × World :=
  send_text w caption is_outgoing reply_to

/-- Operation `monitor.forward_messages` as used by the media fallback path: one
destination message forwarded by the monitor account. -/
def forward_messages (w : World) (m : Msg) : Option Int × World :=
  send_text w (m.text.getD []) m.out Option.none

/-- Operation `monitor.download_media` (view-once path): downloads to a temporary
path, failing per the `downloadOk` schedule. -/
def download_media (w : World) : Bool × World :=
  let p := popOk w.downloadOk
  (p.1, { w with downloadOk := p.2 })

/-- Handler `MessageHandler.handle` (src/src/handlers/messages.py): empty or missing
text is dropped; otherwise one `send_text`; any exception is caught and the
event is dropped without retry. -/
def MessageHandler_handle (w : World) (m : Msg) (is_outgoing : Bool)
    (reply_to_group_id : Option Int) : Option Int × World :=
  match m.text with
  | Option.none => (Option.none, w)
  | some t =>
    if t = [] then (Option.none, w)
    else send_text w t is_outgoing reply_to_group_id

/-- Handler `MediaHandler._fallback_forward`: forward via the monitor account, then
send a context line via the bot; a failure of either step is caught and
yields `None`. -/
def MediaHandler_fallback_forward (st : Settings) (w : World) (m : Msg)
    (is_outgoing : Bool) : Option Int × World :=
  match forward_messages w m with
  | (Option.none, w1) => (Option.none, w1)
  | (some fid, w1) =>
    let label := "👤 ".data ++ get_sender_name st is_outgoing ++ " (forwarded directly)".data
    match send_text w1 label is_outgoing (some fid) with
    | (Option.none, w2) => (Option.none, w2)
    | (some _, w2) => (some fid, w2)

/-- Handler `MediaHandler.handle` (src/src/handlers/media.py): forward the media via
the bot; on failure fall back to a direct forward. -/
def MediaHandler_handle (st : Settings) (w : World) (m : Msg) (is_outgoing : Bool)
    (reply_to_group_id : Option Int) : Option Int × World :=
  let caption := m.text.getD []
  match send_media w caption is_outgoing reply_to_group_id with
  | (some gid, w1) => (some gid, w1)
  | (Option.none, w1) => MediaHandler_fallback_forward st w1 m is_outgoing

/-- Constant `ViewOnceHandler.VIEW_ONCE_CAPTION`. -/
def VIEW_ONCE_CAPTION : Str := "🔥 View-Once".data

/-- Handler `ViewOnceHandler.handle` (src/src/handlers/view_once.py): download the
self-destructing media, then send the file with a labelled caption; a
failed download or send yields `None`. -/
def ViewOnceHandler_handle (st : Settings) (w : World) (m : Msg) (is_outgoing : Bool)
    (reply_to_group_id : Option Int) : Option Int × World :=
  match download_media w with
  | (false, w1) => (Option.none, w1)
  | (true, w1) =>
    let caption := VIEW_ONCE_CAPTION ++ " from ".data ++ get_sender_name st is_outgoing
    send_file w1 caption is_outgoing reply_to_group_id

/-- Lookup `ReplyHandler.get_group_reply_id` (src/src/handlers/replies.py): map a
source id to its destination id through `get_message`. -/
def ReplyHandler_get_group_reply_id (w : World) (original_msg_id : Int) :
    Option Int × World :=
  match get_message w original_msg_id with
  | (some message_data, w1) => (some message_data.group_id, w1)
  | (Option.none, w1) => (Option.none, w1)

/-- Constant `EditHandler.EDIT_PREFIX`. -/
def EDIT_PREFIX : Str := "✏️ Edited".data

/-- Builder `EditHandler._build_edit_message`: the prefix, a separator, and the new
text (the sender name computed by the caller is never used). -/
def EditHandler_build_edit_message (m : Msg) : Str :=
  let new_text :=
    match m.text with
    | some s => if s = [] then "[Media caption edited]".data else s
    | Option.none => "[Media caption edited]".data
  EDIT_PREFIX ++ ":\n\n".data ++ new_text

/-- Handler `EditHandler.handle` (src/src/handlers/edits.py): an edit whose source
id is not recorded is dropped with a warning — no synthetic record is
created; otherwise an annotation is sent as a reply to the mirrored message
and `add_edit` is called. -/
def EditHandler_handle (w : World) (m : Msg) (is_outgoing : Bool) :
    Option Int × World :=
  match get_message w m.id with
  | (Option.none, w1) => (Option.none, w1)
  | (some original, w1) =>
    let group_reply_id := original.group_id
    if group_reply_id = 0 then (Option.none, w1)
    else
      let edit_text := EditHandler_build_edit_message m
      match send_text w1 edit_text is_outgoing (some group_reply_id) with
      | (Option.none, w2) => (Option.none, w2)
      | (some group_msg_id, w2) =>
        let a := add_edit w2 m.id m.text (some group_msg_id)
        (some group_msg_id, a.2)

/-- Constant `DeleteHandler.DELETE_PREFIX`. -/
def DELETE_PREFIX : Str := "🗑️ Deleted".data

/-- Builder `DeleteHandler._build_delete_message`: a content preview is computed
(and raises on a stored `None` content, modelled as `Option.none`) but the
returned text is only the prefix plus an optional media label. -/
def DeleteHandler_build_delete_message (original : StoredMessage) : Option Str :=
  match original.content with
  | Option.none => Option.none
  | some c =>
    let content_preview := if 100 < c.length then c.take 100 ++ "...".data else c
    let media_label := if original.has_media then " [Had Media]".data else ([] : Str)
    some ( DELETE_PREFIX ++ media_label)

/-- Handler `DeleteHandler.handle` (src/src/handlers/deletes.py): look up the
record, send a reply-anchored delete annotation, then `mark_deleted`; a
missing record is silently ignored. -/
def DeleteHandler_handle (w : World) (original_msg_id : Int) : Option Int × World :=
  match get_message w original_msg_id with
  | (Option.none, w1) => (Option.none, w1)
  | (some original, w1) =>
    let group_reply_id := original.group_id
    let is_outgoing := original.sender == SenderType.you
    if group_reply_id = 0 then (Option.none, w1)
    else
      match DeleteHandler_build_delete_message original with
      | Option.none => (Option.none, w1)
      | some delete_text =>
        match send_text w1 delete_text is_outgoing (some group_reply_id) with
        | (Option.none, w2) => (Option.none, w2)
        | (some group_msg_id, w2) =>
          let d := mark_deleted w2 original_msg_id
          (some group_msg_id, d.2)

/-- Expression `content=msg.text or "[Media]"` in `Monitor._handle_new_message`. -/
def content_or_media (t : Option Str) : Str :=
  match t with
  | some s => if s = [] then "[Media]".data else s
  | Option.none => "[Media]".data

/-- The `save_message` call issued at the end of
`Monitor._handle_new_message`: `reply_to_group` is never passed and
defaults to `None`. -/
def Monitor_save (w : World) (m : Msg) (group_msg_id : Option Int) : Bool × World :=
  save_message w m.id group_msg_id
    (if m.out then SenderType.you else SenderType.her)
    (some (content_or_media m.text)) m.media Option.none Option.none
    m.reply_to_msg_id Option.none false

/-- Handler `Monitor._handle_new_message` (src/src/monitor.py): route the event to
the view-once, media or text handler — resolving the reply target only on
the text path — then persist the record.  The reply target is resolved for
the dispatch but never stored. -/
def Monitor_handle_new_message (st : Settings) (w : World) (m : Msg) : World :=
  let is_outgoing := m.out
  if Monitor_is_view_once m then
    let h := ViewOnceHandler_handle st w m is_outgoing Option.none
    (Monitor_save h.2 m h.1).2
  else if m.media then
    let h := MediaHandler_handle st w m is_outgoing Option.none
    (Monitor_save h.2 m h.1).2
  else
    let r :=
      match m.reply_to_msg_id with
      | some rid => if rid ≠ 0 then ReplyHandler_get_group_reply_id w rid else (Option.none, w)
      | Option.none => (Option.none, w)
    let h := MessageHandler_handle r.2 m is_outgoing r.1
    (Monitor_save h.2 m h.1).2

/-- An initial program state with an empty store and a given first
destination message id. -/
def mkWorld (g : Int) : World :=
  ⟨[], [], [], Option.none, [], g, [], [], [], []⟩

/-- The `MessageRecord` that `Monitor._handle_new_message` persists for an
event `m` whose dispatched copy received destination id `gid`. -/
def monitor_record (m : Msg) (gid : Int) : StoredMessage :=
  MessageModel m.id gid (if m.out then SenderType.you else SenderType.her)
    (some (content_or_media m.text)) m.media Option.none Option.none
    m.reply_to_msg_id Option.none false

/-- A `get_message` whose result component is `none` leaves the state
untouched. -/
theorem get_message_none (w : World) (id : Int)
    (h : (get_message w id).1 = Option.none) : get_message w id = (Option.none, w) := by
  unfold get_message at h ⊢
  cases hc : w.cache.find? (fun p => p.1 = id) with
  | some q => rw [hc] at h; simp at h
  | none =>
    rw [hc] at h
    cases hm : w.messages.find? (fun r => r.original_id = id) with
    | some r => rw [hm] at h; simp at h
    | none => rfl

theorem any_id_eq_false (l : List StoredMessage) (id : Int)
    (hfresh : ∀ r ∈ l, r.original_id ≠ id) :
    (l.any fun r => r.original_id = id) = false := by
  rw [Bool.eq_false_iff]
  intro hcon
  rw [List.any_eq_true] at hcon
  obtain ⟨x, hx, hpx⟩ := hcon
  exact hfresh x hx (by simpa using hpx)

theorem insert_one_messages_fresh (w : World) (r : StoredMessage)
    (hdb : w.dbOk = [])
    (hfresh : (w.messages.any fun m => m.original_id = r.original_id) = false) :
    insert_one_messages w r = (WriteOutcome.ok, { w with messages := w.messages ++ [r] }) := by
  obtain ⟨f1, f2, f3, f4, f5, f6, f7, f8, f9, f10⟩ := w
  simp only [World.dbOk] at hdb
  subst hdb
  simp only [World.messages] at hfresh
  simp [insert_one_messages, popOk, hfresh]

theorem insert_one_messages_dup (w : World) (r : StoredMessage)
    (hdb : w.dbOk = [])
    (hdup : (w.messages.any fun m => m.original_id = r.original_id) = true) :
    insert_one_messages w r = (WriteOutcome.dupKey, w) := by
  obtain ⟨f1, f2, f3, f4, f5, f6, f7, f8, f9, f10⟩ := w
  simp only [World.dbOk] at hdb
  subst hdb
  simp only [World.messages] at hdup
  simp [insert_one_messages, popOk, hdup]

theorem insert_one_messages_fail (w : World) (r : StoredMessage) (rest : List Bool)
    (hdb : w.dbOk = false :: rest) :
    insert_one_messages w r = (WriteOutcome.writeFail, { w with dbOk := rest }) := by
  obtain ⟨f1, f2, f3, f4, f5, f6, f7, f8, f9, f10⟩ := w
  simp only [World.dbOk] at hdb
  subst hdb
  simp [insert_one_messages, popOk]

theorem retry_insert_messages_fresh (w : World) (r : StoredMessage)
    (hdb : w.dbOk = [])
    (hfresh : (w.messages.any fun m => m.original_id = r.original_id) = false) :
    retry_insert_messages w r = (WriteOutcome.ok, { w with messages := w.messages ++ [r] }) := by
  unfold retry_insert_messages
  rw [insert_one_messages_fresh w r hdb hfresh]

theorem retry_insert_messages_dup (w : World) (r : StoredMessage)
    (hdb : w.dbOk = [])
    (hdup : (w.messages.any fun m => m.original_id = r.original_id) = true) :
    retry_insert_messages w r = (WriteOutcome.dupKey, { w with slept := w.slept ++ [1, 2] }) := by
  unfold retry_insert_messages
  rw [insert_one_messages_dup w r hdb hdup]
  dsimp only
  rw [insert_one_messages_dup _ r (by simpa using hdb) (by simpa using hdup)]
  dsimp only
  rw [insert_one_messages_dup _ r (by simpa using hdb) (by simpa using hdup)]
  simp [RETRY_DELAY]

theorem retry_insert_messages_two_faults (w : World) (r : StoredMessage)
    (hdb : w.dbOk = [false, false, true])
    (hfresh : (w.messages.any fun m => m.original_id = r.original_id) = false) :
    retry_insert_messages w r =
      (WriteOutcome.ok,
       { w with dbOk := [], slept := w.slept ++ [1, 2], messages := w.messages ++ [r] }) := by
  obtain ⟨f1, f2, f3, f4, f5, f6, f7, f8, f9, f10⟩ := w
  simp only [World.dbOk] at hdb
  subst hdb
  simp only [World.messages] at hfresh
  simp [retry_insert_messages, insert_one_messages, popOk, hfresh, RETRY_DELAY,
    List.append_assoc]

theorem retry_insert_messages_three_faults (w : World) (r : StoredMessage)
    (hdb : w.dbOk = [false, false, false]) :
    retry_insert_messages w r =
      (WriteOutcome.writeFail, { w with dbOk := [], slept := w.slept ++ [1, 2] }) := by
  obtain ⟨f1, f2, f3, f4, f5, f6, f7, f8, f9, f10⟩ := w
  simp only [World.dbOk] at hdb
  subst hdb
  simp [retry_insert_messages, insert_one_messages, popOk, RETRY_DELAY,
    List.append_assoc]

/-- Running `save_message` on a fresh `original_id` with no injected store faults:
the record is appended, the cache is primed, and the checkpoint is
overwritten with the new id. -/
theorem save_message_fresh (w : World) (id gid : Int) (s : SenderType)
    (c : Option Str) (hm : Bool) (mt : Option MediaType) (mp : Option Str)
    (rto rtg : Option Int) (vo : Bool)
    (hdb : w.dbOk = [])
    (hfresh : ∀ r ∈ w.messages, r.original_id ≠ id) :
    save_message w id (some gid) s c hm mt mp rto rtg vo =
      (true, { w with
        messages := w.messages ++ [MessageModel id gid s c hm mt mp rto rtg vo]
        cache := (id, MessageModel id gid s c hm mt mp rto rtg vo) :: w.cache
        last_processed_id := some id }) := by
  have hany : (w.messages.any fun m =>
      m.original_id = (MessageModel id gid s c hm mt mp rto rtg vo).original_id) = false := by
    simpa [MessageModel] using any_id_eq_false w.messages id hfresh
  unfold save_message
  dsimp only
  rw [retry_insert_messages_fresh w _ hdb hany]
  dsimp only
  unfold update_last_processed_id popOk
  obtain ⟨f1, f2, f3, f4, f5, f6, f7, f8, f9, f10⟩ := w
  simp only [World.dbOk] at hdb
  subst hdb
  rfl

/-- Running `save_message` on an already-stored `original_id` with no injected
faults: the duplicate insert is retried (sleeping 1 s then 2 s, since
`DuplicateKeyError` is a `WriteError` subclass), then caught; nothing else
changes — no cache fill and no checkpoint advance. -/
theorem save_message_dup (w : World) (id gid : Int) (s : SenderType)
    (c : Option Str) (hm : Bool) (mt : Option MediaType) (mp : Option Str)
    (rto rtg : Option Int) (vo : Bool)
    (hdb : w.dbOk = [])
    (hdup : (w.messages.any fun r => r.original_id = id) = true) :
    save_message w id (some gid) s c hm mt mp rto rtg vo =
      (false, { w with slept := w.slept ++ [1, 2] }) := by
  have hany : (w.messages.any fun m =>
      m.original_id = (MessageModel id gid s c hm mt mp rto rtg vo).original_id) = true := by
    simpa [MessageModel] using hdup
  unfold save_message
  dsimp only
  rw [retry_insert_messages_dup w _ hdb hany]

/-- Running `send_text` with no injected transport fault: one destination message
is appended and the assigned id returned. -/
theorem send_text_ok (w : World) (t : Str) (o : Bool) (rto : Option Int)
    (hsend : w.sendOk = []) :
    send_text w t o rto =
      (some w.next_group_id,
       { w with sent := w.sent ++ [⟨w.next_group_id, t, o, rto⟩]
                next_group_id := w.next_group_id + 1 }) := by
  obtain ⟨f1, f2, f3, f4, f5, f6, f7, f8, f9, f10⟩ := w
  simp only [World.sendOk] at hsend
  subst hsend
  rfl

/-- Running `send_text` whose next scheduled transport outcome is a failure: the
exception propagates (result `none`) with only the schedule consumed. -/
theorem send_text_fail (w : World) (t : Str) (o : Bool) (rto : Option Int)
    (rest : List Bool) (hsend : w.sendOk = false :: rest) :
    send_text w t o rto = (Option.none, { w with sendOk := rest }) := by
  obtain ⟨f1, f2, f3, f4, f5, f6, f7, f8, f9, f10⟩ := w
  simp only [World.sendOk] at hsend
  subst hsend
  rfl

/-- One pass of `Monitor._handle_new_message` over a fresh text message with
no reply and no injected faults: the text is dispatched once and the record
persisted, with the checkpoint overwritten. -/
theorem monitor_text_step (st : Settings) (w : World) (m : Msg) (t : Str)
    (hm : m.media = false) (ht : m.text = some t) (hne : t ≠ [])
    (hr : m.reply_to_msg_id = Option.none)
    (hsend : w.sendOk = []) (hdb : w.dbOk = [])
    (hfresh : ∀ r ∈ w.messages, r.original_id ≠ m.id) :
    Monitor_handle_new_message st w m =
      { w with
        sent := w.sent ++ [⟨w.next_group_id, t, m.out, Option.none⟩]
        next_group_id := w.next_group_id + 1
        messages := w.messages ++ [monitor_record m w.next_group_id]
        cache := (m.id, monitor_record m w.next_group_id) :: w.cache
        last_processed_id := some m.id } := by
  unfold Monitor_handle_new_message Monitor_is_view_once MessageHandler_handle
  rw [hm, hr, ht]
  simp only [Bool.false_and, Bool.false_eq_true, if_false]
  rw [if_neg (by simpa using hne)]
  rw [send_text_ok w t m.out Option.none hsend]
  dsimp only
  unfold Monitor_save
  rw [save_message_fresh
        { w with sent := w.sent ++ [⟨w.next_group_id, t, m.out, Option.none⟩]
                 next_group_id := w.next_group_id + 1 }
        m.id w.next_group_id _ _ _ _ _ _ _ _ hdb hfresh]
  rfl

/-- One pass of `Monitor._handle_new_message` over a text message whose
`original_id` is already stored, with no injected faults: the text is
dispatched AGAIN, the duplicate insert is retried then swallowed, and the
store is otherwise untouched. -/
theorem monitor_text_step_dup (st : Settings) (w : World) (m : Msg) (t : Str)
    (hm : m.media = false) (ht : m.text = some t) (hne : t ≠ [])
    (hr : m.reply_to_msg_id = Option.none)
    (hsend : w.sendOk = []) (hdb : w.dbOk = [])
    (hdup : (w.messages.any fun r => r.original_id = m.id) = true) :
    Monitor_handle_new_message st w m =
      { w with
        sent := w.sent ++ [⟨w.next_group_id, t, m.out, Option.none⟩]
        next_group_id := w.next_group_id + 1
        slept := w.slept ++ [1, 2] } := by
  unfold Monitor_handle_new_message Monitor_is_view_once MessageHandler_handle
  rw [hm, hr, ht]
  simp only [Bool.false_and, Bool.false_eq_true, if_false]
  rw [if_neg (by simpa using hne)]
  rw [send_text_ok w t m.out Option.none hsend]
  dsimp only
  unfold Monitor_save
  rw [save_message_dup
        { w with sent := w.sent ++ [⟨w.next_group_id, t, m.out, Option.none⟩]
                 next_group_id := w.next_group_id + 1 }
        m.id w.next_group_id _ _ _ _ _ _ _ _ hdb hdup]

/-- One pass of `Monitor._handle_new_message` over a fresh text message that
replies to a source id already cached in the identifier map: the dispatched
copy is anchored to the mapped destination id, but the record is persisted
with `reply_to_group = None` (the monitor never passes it). -/
theorem monitor_text_step_reply (st : Settings) (w : World) (m : Msg) (t : Str)
    (rid : Int) (q : Int × StoredMessage)
    (hm : m.media = false) (ht : m.text = some t) (hne : t ≠ [])
    (hr : m.reply_to_msg_id = some rid) (hrid : rid ≠ 0)
    (hq : w.cache.find? (fun p => p.1 = rid) = some q)
    (hsend : w.sendOk = []) (hdb : w.dbOk = [])
    (hfresh : ∀ r ∈ w.messages, r.original_id ≠ m.id) :
    Monitor_handle_new_message st w m =
      { w with
        sent := w.sent ++ [⟨w.next_group_id, t, m.out, some q.2.group_id⟩]
        next_group_id := w.next_group_id + 1
        messages := w.messages ++ [monitor_record m w.next_group_id]
        cache := (m.id, monitor_record m w.next_group_id) :: w.cache
        last_processed_id := some m.id } := by
  unfold Monitor_handle_new_message Monitor_is_view_once
  rw [hm, hr]
  simp only [Bool.false_and, Bool.false_eq_true, if_false]
  rw [if_pos hrid]
  unfold ReplyHandler_get_group_reply_id get_message
  rw [hq]
  dsimp only
  unfold MessageHandler_handle
  rw [ht]
  dsimp only
  rw [if_neg (by simpa using hne)]
  rw [send_text_ok w t m.out (some q.2.group_id) hsend]
  dsimp only
  unfold Monitor_save
  rw [save_message_fresh
        { w with sent := w.sent ++ [⟨w.next_group_id, t, m.out, some q.2.group_id⟩]
                 next_group_id := w.next_group_id + 1 }
        m.id w.next_group_id _ _ _ _ _ _ _ _ hdb hfresh]
  rfl

/-- C3 (amended): an edit event whose `source_id` is not in the map (neither
cached nor stored) is a no-op: no synthetic record, no EditEvent row, no
dispatch — the handler returns `None` and the state is unchanged. -/
theorem C3_unseen_edit_is_noop (w : World) (m : Msg) (o : Bool)
    (h : (get_message w m.id).1 = Option.none) :
    EditHandler_handle w m o = (Option.none, w) := by
  unfold EditHandler_handle
  rw [get_message_none w m.id h]

/-- C5 (amended): a successful `save_message` unconditionally overwrites the
checkpoint with the id just written, whatever its previous value. -/
theorem C5_checkpoint_overwritten (w : World) (id gid : Int) (s : SenderType)
    (c : Option Str) (hm : Bool) (mt : Option MediaType) (mp : Option Str)
    (rto rtg : Option Int) (vo : Bool)
    (hdb : w.dbOk = [])
    (hfresh : ∀ r ∈ w.messages, r.original_id ≠ id) :
    (save_message w id (some gid) s c hm mt mp rto rtg vo).1 = true ∧
    (save_message w id (some gid) s c hm mt mp rto rtg vo).2.last_processed_id = some id := by
  rw [save_message_fresh w id gid s c hm mt mp rto rtg vo hdb hfresh]
  exact ⟨rfl, rfl⟩

/-- C9: content beyond 4096 characters is stored as exactly 4096 characters
ending in the three-dot ellipsis; content of at most 4096 characters is
stored unchanged. -/
theorem C9_truncation (s : Str) :
    (4096 < s.length →
      ∃ t, truncate_content (some s) = some t ∧ t.length = 4096 ∧
        t.drop 4093 = "...".data) ∧
    (s.length ≤ 4096 → truncate_content (some s) = some s) := by
  constructor
  · intro h
    have hne : s ≠ [] := by
      intro he
      rw [he] at h
      simp at h
    have h1 : (s.take 4093).length = 4093 := by
      rw [List.length_take]
      exact min_eq_left (by omega)
    refine ⟨s.take 4093 ++ "...".data, ?_, ?_, ?_⟩
    · unfold truncate_content
      dsimp only
      rw [if_pos ⟨hne, h⟩]
    · rw [List.length_append, h1]
      rfl
    · exact List.drop_left' h1
  · intro h
    unfold truncate_content
    dsimp only
    rw [if_neg]
    intro hcon
    omega

/-- C10: the delete annotation depends only on `has_media` — two records
agreeing on it produce identical annotation text whatever their content
(the computed preview is never used). -/
theorem C10_annotation_ignores_content (r1 r2 : StoredMessage) (c1 c2 : Str)
    (h1 : r1.content = some c1) (h2 : r2.content = some c2)
    (hm : r1.has_media = r2.has_media) :
    DeleteHandler_build_delete_message r1 = DeleteHandler_build_delete_message r2 := by
  unfold DeleteHandler_build_delete_message
  rw [h1, h2, hm]

/-- C1 (amended): applying the same text event twice from a clean store
yields exactly one MessageRecord (the second insert hits the unique index
and is treated as a no-op), but each application dispatches, so TWO
destination messages are sent. -/
theorem C1_duplicate_event (st : Settings) (g : Int) (m : Msg) (t : Str)
    (hm : m.media = false) (ht : m.text = some t) (hne : t ≠ [])
    (hr : m.reply_to_msg_id = Option.none) :
    ((Monitor_handle_new_message st (Monitor_handle_new_message st (mkWorld g) m) m).messages.filter
        (fun r => r.original_id = m.id)).length = 1 ∧
    (Monitor_handle_new_message st (Monitor_handle_new_message st (mkWorld g) m) m).sent.length = 2 := by
  have h1 : Monitor_handle_new_message st (mkWorld g) m =
      ⟨[monitor_record m g], [], [(m.id, monitor_record m g)], some m.id,
       [⟨g, t, m.out, Option.none⟩], g + 1, [], [], [], []⟩ := by
    rw [monitor_text_step st (mkWorld g) m t hm ht hne hr rfl rfl (by simp [mkWorld])]
    rfl
  have h2 : Monitor_handle_new_message st
      (⟨[monitor_record m g], [], [(m.id, monitor_record m g)], some m.id,
        [⟨g, t, m.out, Option.none⟩], g + 1, [], [], [], []⟩ : World) m =
      ⟨[monitor_record m g], [], [(m.id, monitor_record m g)], some m.id,
       [⟨g, t, m.out, Option.none⟩, ⟨g + 1, t, m.out, Option.none⟩], g + 2, [], [], [], [1, 2]⟩ := by
    rw [monitor_text_step_dup st _ m t hm ht hne hr rfl rfl
        (by simp [monitor_record, MessageModel])]
    simp
    omega
  rw [h1, h2]
  simp [monitor_record, MessageModel]

/-- C2 (amended): with A mapped first, B's dispatched copy is anchored as a
reply to A's destination id, but the record stored for B carries
`reply_to_group = None` — the resolved id is never persisted. -/
theorem C2_reply_resolved_for_dispatch_only (st : Settings) (g : Int) (A B : Msg)
    (ta tb : Str)
    (hmA : A.media = false) (htA : A.text = some ta) (hneA : ta ≠ [])
    (hrA : A.reply_to_msg_id = Option.none)
    (hmB : B.media = false) (htB : B.text = some tb) (hneB : tb ≠ [])
    (hrB : B.reply_to_msg_id = some A.id) (hA0 : A.id ≠ 0) (hAB : A.id ≠ B.id) :
    ∃ rA rB : StoredMessage,
      (Monitor_handle_new_message st (Monitor_handle_new_message st (mkWorld g) A) B).messages.find?
          (fun r => r.original_id = A.id) = some rA ∧
      (Monitor_handle_new_message st (Monitor_handle_new_message st (mkWorld g) A) B).messages.find?
          (fun r => r.original_id = B.id) = some rB ∧
      (Monitor_handle_new_message st (Monitor_handle_new_message st (mkWorld g) A) B).sent.getLast? =
        some ⟨g + 1, tb, B.out, some rA.group_id⟩ ∧
      rB.reply_to_original = some A.id ∧
      rB.reply_to_group = Option.none := by
  have h1 : Monitor_handle_new_message st (mkWorld g) A =
      ⟨[monitor_record A g], [], [(A.id, monitor_record A g)], some A.id,
       [⟨g, ta, A.out, Option.none⟩], g + 1, [], [], [], []⟩ := by
    rw [monitor_text_step st (mkWorld g) A ta hmA htA hneA hrA rfl rfl (by simp [mkWorld])]
    rfl
  have h2 : Monitor_handle_new_message st
      (⟨[monitor_record A g], [], [(A.id, monitor_record A g)], some A.id,
        [⟨g, ta, A.out, Option.none⟩], g + 1, [], [], [], []⟩ : World) B =
      ⟨[monitor_record A g, monitor_record B (g + 1)], [],
       [(B.id, monitor_record B (g + 1)), (A.id, monitor_record A g)], some B.id,
       [⟨g, ta, A.out, Option.none⟩, ⟨g + 1, tb, B.out, some (monitor_record A g).group_id⟩],
       g + 2, [], [], [], []⟩ := by
    rw [monitor_text_step_reply st _ B tb A.id (A.id, monitor_record A g)
        hmB htB hneB hrB hA0 (by simp) rfl rfl
        (by simp [monitor_record, MessageModel]; omega)]
    simp
    omega
  rw [h1, h2]
  refine ⟨monitor_record A g, monitor_record B (g + 1), ?_, ?_, ?_, ?_, ?_⟩
  · simp [monitor_record, MessageModel]
  · simp [monitor_record, MessageModel, hAB]
  · rfl
  · simp [monitor_record, MessageModel, hrB]
  · rfl

/-- C4 (amended): a failed destination send is NOT retried — the handler
drops the event after the single attempt, with no backoff sleep; the
3-attempt doubling backoff exists only in `_retry_operation`, which guards
database writes. -/
theorem C4_no_send_retry :
    (∀ (w : World) (m : Msg) (o : Bool) (rto : Option Int) (t : Str) (rest : List Bool),
        m.text = some t → t ≠ [] → w.sendOk = false :: rest →
        MessageHandler_handle w m o rto = (Option.none, { w with sendOk := rest })) ∧
    (∀ (w : World) (r : StoredMessage),
        w.dbOk = [false, false, true] →
        (w.messages.any fun x => x.original_id = r.original_id) = false →
        retry_insert_messages w r =
          (WriteOutcome.ok,
           { w with dbOk := [], slept := w.slept ++ [1, 2],
                    messages := w.messages ++ [r] })) ∧
    (∀ (w : World) (r : StoredMessage),
        w.dbOk = [false, false, false] →
        retry_insert_messages w r =
          (WriteOutcome.writeFail, { w with dbOk := [], slept := w.slept ++ [1, 2] })) := by
  refine ⟨?_, ?_, ?_⟩
  · intro w m o rto t rest ht hne hsend
    unfold MessageHandler_handle
    rw [ht]
    dsimp only
    rw [if_neg (by simpa using hne)]
    exact send_text_fail w t o rto rest hsend
  · intro w r hdb hfresh
    exact retry_insert_messages_two_faults w r hdb hfresh
  · intro w r hdb
    exact retry_insert_messages_three_faults w r hdb

/-- C6 (amended): the two writes of `add_edit` are sequential with no
transaction: when the message update fails after the edit-history insert
succeeded, the EditEvent row persists while the MessageRecord is unchanged,
and `add_edit` reports failure without rolling back. -/
theorem C6_add_edit_not_atomic (w : World) (id : Int) (r : StoredMessage)
    (oldc new_c : Str) (nid : Option Int) (rest : List Bool)
    (hc : w.cache = [])
    (hfind : w.messages.find? (fun x => x.original_id = id) = some r)
    (hcontent : r.content = some oldc)
    (hdb : w.dbOk = true :: false :: rest) :
    add_edit w id (some new_c) nid =
      (false, { w with
        cache := [(id, r)]
        edit_history := w.edit_history ++ [⟨id, oldc, new_c, nid⟩]
        dbOk := rest }) ∧
    (add_edit w id (some new_c) nid).2.messages = w.messages := by
  have hmain : add_edit w id (some new_c) nid =
      (false, { w with
        cache := [(id, r)]
        edit_history := w.edit_history ++ [⟨id, oldc, new_c, nid⟩]
        dbOk := rest }) := by
    obtain ⟨f1, f2, f3, f4, f5, f6, f7, f8, f9, f10⟩ := w
    simp only [World.cache] at hc
    simp only [World.dbOk] at hdb
    simp only [World.messages] at hfind
    subst hc
    subst hdb
    simp [add_edit, get_message, insert_one_edit_history, update_one_message_edit,
      popOk, hfind, hcontent]
  exact ⟨hmain, by rw [hmain]⟩

/-- Pairwise frame relation for C7: every field except `is_deleted` is
preserved, and `is_deleted` may change only on the record with the deleted
source id (and only to `true`). -/
def frame_except_deleted (id : Int) (old new : StoredMessage) : Prop :=
  new.original_id = old.original_id ∧ new.group_id = old.group_id ∧
  new.sender = old.sender ∧ new.content = old.content ∧
  new.has_media = old.has_media ∧ new.media_type = old.media_type ∧
  new.media_path = old.media_path ∧ new.reply_to_original = old.reply_to_original ∧
  new.reply_to_group = old.reply_to_group ∧ new.is_forwarded = old.is_forwarded ∧
  new.is_edited = old.is_edited ∧ new.view_once = old.view_once ∧
  (new.is_deleted = old.is_deleted ∨ (new.original_id = id ∧ new.is_deleted = true))

theorem frame_except_deleted_refl (id : Int) (r : StoredMessage) :
    frame_except_deleted id r r := by
  unfold frame_except_deleted
  simp

theorem set_deleted_first_forall₂ (l : List StoredMessage) (id : Int) :
    List.Forall₂ (frame_except_deleted id) l (set_deleted_first l id) := by
  induction l with
  | nil => exact List.Forall₂.nil
  | cons a rest ih =>
    unfold set_deleted_first
    by_cases h : a.original_id = id
    · rw [if_pos h]
      refine List.Forall₂.cons ?_ ?_
      · unfold frame_except_deleted
        simp [h]
      · exact List.forall₂_same.mpr fun x _ => frame_except_deleted_refl id x
    · rw [if_neg h]
      exact List.Forall₂.cons (frame_except_deleted_refl id a) ih

theorem set_deleted_first_find? (l : List StoredMessage) (id : Int) (r : StoredMessage)
    (hfind : l.find? (fun x => x.original_id = id) = some r) :
    (set_deleted_first l id).find? (fun x => x.original_id = id) =
      some { r with is_deleted := true } := by
  induction l with
  | nil => simp [List.find?] at hfind
  | cons a rest ih =>
    by_cases h : a.original_id = id
    · rw [List.find?_cons_of_pos _ (by simpa using h)] at hfind
      have ha : a = r := by injection hfind
      unfold set_deleted_first
      rw [if_pos h]
      rw [List.find?_cons_of_pos _ (by simpa using h)]
      rw [ha]
    · rw [List.find?_cons_of_neg _ (by simpa using h)] at hfind
      unfold set_deleted_first
      rw [if_neg h]
      rw [List.find?_cons_of_neg _ (by simpa using h)]
      exact ih hfind

theorem deleted_update_self (r : StoredMessage) (h : r.is_deleted = true) :
    ({ r with is_deleted := true } : StoredMessage) = r := by
  cases r
  simp_all

theorem get_message_db_hit (w : World) (id : Int) (r : StoredMessage)
    (hc : w.cache.find? (fun p => p.1 = id) = Option.none)
    (hfind : w.messages.find? (fun x => x.original_id = id) = some r) :
    get_message w id = (some r, { w with cache := (id, r) :: w.cache }) := by
  unfold get_message
  rw [hc, hfind]

theorem build_delete_message_some (r : StoredMessage) (c : Str)
    (hcontent : r.content = some c) :
    DeleteHandler_build_delete_message r =
      some ( DELETE_PREFIX ++ (if r.has_media then " [Had Media]".data else ([] : Str))) := by
  unfold DeleteHandler_build_delete_message
  rw [hcontent]

/-- C7: for a stored record with a usable destination id, a delete event
dispatches exactly one annotation and flips only `is_deleted`; `content`,
`media_path`, `group_id` and every other field are unchanged on every
stored record. -/
theorem C7_delete_preserves (w : World) (id : Int) (r : StoredMessage) (c : Str)
    (hc : w.cache = [])
    (hfind : w.messages.find? (fun x => x.original_id = id) = some r)
    (hg : r.group_id ≠ 0) (hcontent : r.content = some c)
    (hdb : w.dbOk = []) (hsend : w.sendOk = []) :
    (DeleteHandler_handle w id).1 = some w.next_group_id ∧
    (DeleteHandler_handle w id).2.sent.length = w.sent.length + 1 ∧
    List.Forall₂ (frame_except_deleted id) w.messages (DeleteHandler_handle w id).2.messages ∧
    (DeleteHandler_handle w id).2.messages.find? (fun x => x.original_id = id) =
      some { r with is_deleted := true } := by
  unfold DeleteHandler_handle
  rw [get_message_db_hit w id r (by rw [hc]; rfl) hfind]
  dsimp only
  rw [if_neg hg]
  rw [build_delete_message_some r c hcontent]
  dsimp only
  rw [send_text_ok _ _ _ _
      (show ({ w with cache := (id, r) :: w.cache } : World).sendOk = [] from hsend)]
  dsimp only
  unfold mark_deleted
  dsimp only
  rw [hdb]
  simp only [popOk]
  rw [hfind]
  simp only [if_true]
  by_cases hdel : r.is_deleted = true
  · rw [if_pos hdel]
    dsimp only [cache_invalidate]
    refine ⟨by trivial, by simp, ?_, ?_⟩
    · exact List.forall₂_same.mpr fun x _ => frame_except_deleted_refl id x
    · rw [hfind, deleted_update_self r hdel]
  · rw [if_neg hdel]
    dsimp only [cache_invalidate]
    refine ⟨by trivial, by simp, ?_, ?_⟩
    · exact set_deleted_first_forall₂ w.messages id
    · exact set_deleted_first_find? w.messages id r hfind

/-- C8 (amended): `mark_deleted` reports `modified_count > 0`: `true`
exactly when a record with the id exists AND was not already marked
deleted; an existing but already-deleted record yields `false`, as does a
missing one — never an error. -/
theorem C8_mark_deleted_iff (w : World) (id : Int) (hdb : w.dbOk = [])
    (hnd : (w.messages.map (fun r => r.original_id)).Nodup) :
    (mark_deleted w id).1 = true ↔
      ∃ r ∈ w.messages, r.original_id = id ∧ r.is_deleted = false := by
  unfold mark_deleted
  rw [hdb]
  simp only [popOk]
  cases hfind : w.messages.find? (fun x => x.original_id = id) with
  | none =>
    rw [List.find?_eq_none] at hfind
    simp only [if_true]
    constructor
    · intro hcon
      simp at hcon
    · rintro ⟨x, hx, hid, _⟩
      exact absurd (by simpa using hid) (hfind x hx)
  | some r =>
    have hmem : r ∈ w.messages := List.mem_of_find?_eq_some hfind
    have hpred : r.original_id = id := by simpa using List.find?_some hfind
    simp only [if_true]
    by_cases hdel : r.is_deleted = true
    · rw [if_pos hdel]
      constructor
      · intro hcon
        simp at hcon
      · rintro ⟨x, hx, hid, hxdel⟩
        have hxr : x = r := List.inj_on_of_nodup_map hnd hx hmem (by rw [hid, hpred])
        rw [hxr, hdel] at hxdel
        exact absurd hxdel (by simp)
    · rw [if_neg hdel]
      have hdelf : r.is_deleted = false := by simpa using hdel
      constructor
      · intro _
        exact ⟨r, hmem, hpred, hdelf⟩
      · intro _
        rfl

/-- Names used when labelling annotation messages in concrete runs. -/
def st0 : Settings := ⟨"You".data, "Her".data⟩

def C1msg : Msg := ⟨1, true, some "hi".data, false, false, Option.none⟩

/-- C1 counterexample: replaying the same event leaves one stored record but
sends a SECOND destination message — the claim's "no additional dispatch"
fails. -/
theorem C1_counterexample :
    ((Monitor_handle_new_message st0 (Monitor_handle_new_message st0 (mkWorld 100) C1msg) C1msg).messages.filter
        (fun r => r.original_id = 1)).length = 1 ∧
    (Monitor_handle_new_message st0 (Monitor_handle_new_message st0 (mkWorld 100) C1msg) C1msg).sent.length = 2 ∧
    ¬((Monitor_handle_new_message st0 (Monitor_handle_new_message st0 (mkWorld 100) C1msg) C1msg).sent.length = 1) := by
  decide

/-- C1 witness: the amended statement at a concrete event. -/
theorem C1_witness :
    ((Monitor_handle_new_message st0 (Monitor_handle_new_message st0 (mkWorld 100) C1msg) C1msg).messages.filter
        (fun r => r.original_id = C1msg.id)).length = 1 ∧
    (Monitor_handle_new_message st0 (Monitor_handle_new_message st0 (mkWorld 100) C1msg) C1msg).sent.length = 2 :=
  C1_duplicate_event st0 100 C1msg "hi".data rfl rfl (by decide) rfl

def C2a : Msg := ⟨1, true, some "hi".data, false, false, Option.none⟩

def C2b : Msg := ⟨2, false, some "yo".data, false, false, some 1⟩

/-- C2 counterexample: A is mapped to destination id 100, yet the record
stored for B carries `reply_to_group = None`, not `some 100` — the claim
about the STORED `reply_to_dest` fails. -/
theorem C2_counterexample :
    ((Monitor_handle_new_message st0 (Monitor_handle_new_message st0 (mkWorld 100) C2a) C2b).messages.find?
        (fun r => r.original_id = 2)).map (fun r => r.reply_to_group) = some Option.none ∧
    ((Monitor_handle_new_message st0 (Monitor_handle_new_message st0 (mkWorld 100) C2a) C2b).messages.find?
        (fun r => r.original_id = 1)).map (fun r => r.group_id) = some 100 ∧
    (Option.none : Option Int) ≠ some 100 := by
  decide

/-- C2 witness: the amended statement at concrete events. -/
theorem C2_witness :
    ∃ rA rB : StoredMessage,
      (Monitor_handle_new_message st0 (Monitor_handle_new_message st0 (mkWorld 100) C2a) C2b).messages.find?
          (fun r => r.original_id = C2a.id) = some rA ∧
      (Monitor_handle_new_message st0 (Monitor_handle_new_message st0 (mkWorld 100) C2a) C2b).messages.find?
          (fun r => r.original_id = C2b.id) = some rB ∧
      (Monitor_handle_new_message st0 (Monitor_handle_new_message st0 (mkWorld 100) C2a) C2b).sent.getLast? =
        some ⟨100 + 1, "yo".data, C2b.out, some rA.group_id⟩ ∧
      rB.reply_to_original = some C2a.id ∧
      rB.reply_to_group = Option.none :=
  C2_reply_resolved_for_dispatch_only st0 100 C2a C2b "hi".data "yo".data
    rfl rfl (by decide) rfl rfl rfl (by decide) rfl (by decide) (by decide)

def C3msg : Msg := ⟨7, true, some "new text".data, false, false, Option.none⟩

/-- C3 counterexample: an edit for an unseen source id changes nothing — no
synthetic record, zero EditEvent rows (the claim demands one), no record
with `is_edited = true`. -/
theorem C3_counterexample :
    EditHandler_handle (mkWorld 100) C3msg true = (Option.none, mkWorld 100) ∧
    (EditHandler_handle (mkWorld 100) C3msg true).2.edit_history.length = 0 ∧
    ¬((EditHandler_handle (mkWorld 100) C3msg true).2.edit_history.length = 1) ∧
    (EditHandler_handle (mkWorld 100) C3msg true).2.messages = [] := by
  decide

/-- C3 witness: the amended no-op statement at a concrete input. -/
theorem C3_witness :
    EditHandler_handle (mkWorld 100) C3msg true = (Option.none, mkWorld 100) :=
  C3_unseen_edit_is_noop (mkWorld 100) C3msg true (by decide)

def C4msg : Msg := ⟨1, true, some "hi".data, false, false, Option.none⟩

def C4w : World := ⟨[], [], [], Option.none, [], 100, [], [false, true, true], [], []⟩

def C4sw : World := ⟨[], [], [], Option.none, [], 100, [], [false], [], []⟩

def C4rec : StoredMessage :=
  ⟨5, 50, SenderType.you, some "x".data, false, MediaType.none, Option.none,
   Option.none, Option.none, false, false, false, false⟩

def C4dbw1 : World := ⟨[], [], [], Option.none, [], 100, [false, false, true], [], [], []⟩

def C4dbw2 : World := ⟨[], [], [], Option.none, [], 100, [false, false, false], [], [], []⟩

/-- C4 counterexample: the first send fails while the fault schedule holds
two further successes, yet the event is dropped at once — nothing sent, one
schedule entry consumed, no backoff sleep.  The claimed 3-attempt retry of
destination sends does not happen. -/
theorem C4_counterexample :
    MessageHandler_handle C4w C4msg true Option.none =
      (Option.none, { C4w with sendOk := [true, true] }) ∧
    (MessageHandler_handle C4w C4msg true Option.none).2.sent = [] ∧
    (MessageHandler_handle C4w C4msg true Option.none).2.slept = [] := by
  decide

/-- C4 witness: the amended statement at concrete inputs — a dropped send
and the database-write retry loop with doubling delays. -/
theorem C4_witness :
    MessageHandler_handle C4sw C4msg true Option.none =
      (Option.none, { C4sw with sendOk := [] }) ∧
    retry_insert_messages C4dbw1 C4rec =
      (WriteOutcome.ok, { C4dbw1 with dbOk := [], slept := [1, 2], messages := [C4rec] }) ∧
    retry_insert_messages C4dbw2 C4rec =
      (WriteOutcome.writeFail, { C4dbw2 with dbOk := [], slept := [1, 2] }) :=
  ⟨C4_no_send_retry.1 C4sw C4msg true Option.none "hi".data [] rfl (by decide) rfl,
   C4_no_send_retry.2.1 C4dbw1 C4rec rfl (by decide),
   C4_no_send_retry.2.2 C4dbw2 C4rec rfl⟩

/-- C5 counterexample: writing id 5 then id 3 moves the checkpoint from
`some 5` down to `some 3` — it is not monotone. -/
theorem C5_counterexample :
    (save_message (mkWorld 100) 5 (some 200) SenderType.you (some "a".data) false
        Option.none Option.none Option.none Option.none false).2.last_processed_id = some 5 ∧
    (save_message
        (save_message (mkWorld 100) 5 (some 200) SenderType.you (some "a".data) false
          Option.none Option.none Option.none Option.none false).2
        3 (some 201) SenderType.you (some "b".data) false
        Option.none Option.none Option.none Option.none false).2.last_processed_id = some 3 ∧
    ¬((5 : Int) ≤ 3) := by
  decide

/-- C5 witness: the amended overwrite statement at a concrete input. -/
theorem C5_witness :
    (save_message (mkWorld 100) 5 (some 200) SenderType.you (some "a".data) false
        Option.none Option.none Option.none Option.none false).1 = true ∧
    (save_message (mkWorld 100) 5 (some 200) SenderType.you (some "a".data) false
        Option.none Option.none Option.none Option.none false).2.last_processed_id = some 5 :=
  C5_checkpoint_overwritten (mkWorld 100) 5 200 SenderType.you (some "a".data) false
    Option.none Option.none Option.none Option.none false rfl (by decide)

def C6rec : StoredMessage :=
  ⟨7, 50, SenderType.her, some "old".data, false, MediaType.none, Option.none,
   Option.none, Option.none, false, false, false, false⟩

def C6w : World := ⟨[C6rec], [], [], Option.none, [], 100, [true, false], [], [], []⟩

/-- C6 counterexample: the edit-history insert succeeds, the message update
fails: afterwards one EditEvent row exists while the MessageRecord is
untouched (`is_edited` still false, content unchanged) — not atomic. -/
theorem C6_counterexample :
    (add_edit C6w 7 (some "new".data) (some 99)).1 = false ∧
    (add_edit C6w 7 (some "new".data) (some 99)).2.edit_history =
      [⟨7, "old".data, "new".data, some 99⟩] ∧
    (add_edit C6w 7 (some "new".data) (some 99)).2.messages = [C6rec] ∧
    C6rec.is_edited = false ∧ C6rec.content = some "old".data := by
  decide

/-- C6 witness: the amended partial-failure statement at a concrete input. -/
theorem C6_witness :
    add_edit C6w 7 (some "new".data) (some 99) =
      (false, { C6w with
        cache := [(7, C6rec)]
        edit_history := [⟨7, "old".data, "new".data, some 99⟩]
        dbOk := [] }) ∧
    (add_edit C6w 7 (some "new".data) (some 99)).2.messages = C6w.messages :=
  C6_add_edit_not_atomic C6w 7 C6rec "old".data "new".data (some 99) [] rfl (by decide) rfl rfl

def C7rec : StoredMessage :=
  ⟨7, 50, SenderType.her, some "keep me".data, true, MediaType.photo,
   some "/media/7.jpg".data, Option.none, Option.none, false, false, false, false⟩

def C7w : World := ⟨[C7rec], [], [], Option.none, [], 100, [], [], [], []⟩

/-- C7 witness: the delete-preservation statement at a concrete record. -/
theorem C7_witness :
    (DeleteHandler_handle C7w 7).1 = some C7w.next_group_id ∧
    (DeleteHandler_handle C7w 7).2.sent.length = C7w.sent.length + 1 ∧
    List.Forall₂ (frame_except_deleted 7) C7w.messages (DeleteHandler_handle C7w 7).2.messages ∧
    (DeleteHandler_handle C7w 7).2.messages.find? (fun x => x.original_id = 7) =
      some { C7rec with is_deleted := true } :=
  C7_delete_preserves C7w 7 C7rec "keep me".data rfl rfl (by decide) rfl rfl rfl

def C8rec : StoredMessage :=
  ⟨7, 50, SenderType.her, some "x".data, false, MediaType.none, Option.none,
   Option.none, Option.none, false, false, true, false⟩

def C8w : World := ⟨[C8rec], [], [], Option.none, [], 100, [], [], [], []⟩

/-- C8 counterexample: a record with the source id exists (already marked
deleted), yet `mark_deleted` returns false — `modified_count`, not
existence. -/
theorem C8_counterexample :
    C8rec ∈ C8w.messages ∧ C8rec.original_id = 7 ∧ (mark_deleted C8w 7).1 = false := by
  decide

/-- C8 witness: the amended characterisation at a concrete store. -/
theorem C8_witness :
    (mark_deleted C8w 7).1 = true ↔
      ∃ r ∈ C8w.messages, r.original_id = 7 ∧ r.is_deleted = false :=
  C8_mark_deleted_iff C8w 7 rfl (by decide)

/-- C9 witness: a 5000-character content is stored as 4096 characters
ending in the ellipsis; a short content is stored unchanged. -/
theorem C9_witness :
    (∃ t, truncate_content (some (List.replicate 5000 'a')) = some t ∧
      t.length = 4096 ∧ t.drop 4093 = "...".data) ∧
    truncate_content (some "hi".data) = some "hi".data :=
  ⟨(C9_truncation (List.replicate 5000 'a')).1 (by rw [List.length_replicate]; decide),
   (C9_truncation "hi".data).2 (by decide)⟩

def C10r1 : StoredMessage :=
  ⟨1, 10, SenderType.you, some "secret text".data, true, MediaType.photo, Option.none,
   Option.none, Option.none, false, false, false, false⟩

def C10r2 : StoredMessage :=
  ⟨2, 20, SenderType.her, some "other words".data, true, MediaType.video, Option.none,
   Option.none, Option.none, false, true, false, false⟩

/-- C10 witness: two records with different contents but the same
`has_media` yield the same annotation text. -/
theorem C10_witness :
    DeleteHandler_build_delete_message C10r1 = DeleteHandler_build_delete_message C10r2 ∧
    C10r1.content ≠ C10r2.content :=
  ⟨C10_annotation_ignores_content C10r1 C10r2 "secret text".data "other words".data rfl rfl rfl,
   by decide⟩
